import Mathlib

/-!
Verification of the `are-we-there-yet` ECS deployment monitor.

The source tree contains two near-identical program variants concatenated in
`main.go`.  The definitions below embed the second variant (the one with
`getActiveDeploymentId`, `checkTargetGroup` and the zero-guard in the
diagnostics printers); the `V1` namespace embeds the first variant's
`printLastNEvents`, whose zero-events case differs.  The two variants share
identical poll loops (`waitForDeployment`, `waitForRunningToMatchDesired`).

Modelling conventions:
* `aws.StringValue` of a possibly-nil pointer yields `""`; we model the
  string fields directly as `String`.
* A call to `DescribeServices` is modelled by a `RefreshResult`: a transport
  failure, an empty `Services` list, or a service value.  A poll loop's
  successive refresh calls are a stream `Nat → RefreshResult` indexed by tick.
* Both poll loops run a check ticker hardcoded to `time.Second * 10` raced
  against a timeout ticker hardcoded to `time.Minute * 10`; hence at most
  `600 / 10 = 60` check ticks run before the timeout ticker's value is
  consumed and the loop returns its timeout error.  The loops are embedded
  with an explicit tick counter `k` (ticks consumed so far) and fuel
  (check ticks remaining until the timeout fires); the top-level entry points
  use fuel `ticksInTimeout = 60`.  Each function returns the Go result
  together with the total number of check ticks consumed.
-/

namespace AWTY

/-- One rollout within a service (`ecs.Deployment`): its `Id`, `Status`
(`PRIMARY` / `ACTIVE` / `INACTIVE`) and `RolloutState`
(`IN_PROGRESS` / `COMPLETED` / `FAILED` / other opaque strings). -/
structure Deployment where
  id : String
  status : String
  rolloutState : String
deriving DecidableEq, Repr

/-- One load-balancer binding of the service (`ecs.LoadBalancer`), reduced to
the field the program reads, `TargetGroupArn`. -/
structure LoadBalancer where
  targetGroupArn : String
deriving DecidableEq, Repr

/-- The fields of `ecs.Service` that the program reads (the snapshot held in
`sh.currentOutput`). -/
structure ECSService where
  desiredCount : Int
  runningCount : Int
  deployments : List Deployment
  events : List String
  loadBalancers : List LoadBalancer
deriving DecidableEq, Repr

/-- Result of one `sh.refresh()` call (`DescribeServices` + the empty-list
check): a transport error, "service not found", or the fetched service. -/
inductive RefreshResult where
  | transportErr
  | noServices
  | ok (svc : ECSService)
deriving DecidableEq, Repr

/-- The error values the monitor's functions can return. -/
inductive MonitorError where
  | transport
  | serviceNotFound
  | deploymentDisappeared
  | timeout
deriving DecidableEq, Repr

/-- The CLI-configured fields of `serviceHandler` that the poll loops are
supposed to honour: `checkInterval` (from `-check`, seconds between checks)
and `checkTimeout` (from `-timeout`, documented as "Timeout in minutes. If
the deployment is still happening after the timeout, it will be considered
a failure."). -/
structure serviceHandler where
  checkInterval : Int
  checkTimeout : Int
deriving DecidableEq, Repr

/-- Seconds between check ticks actually used by both poll loops:
`time.NewTicker(time.Second * 10)` — hardcoded, ignoring `checkInterval`. -/
def loopTickSeconds (_sh : serviceHandler) : Nat := 10

/-- Wall-clock seconds at which the timeout ticker fires in both poll loops:
`time.NewTicker(time.Minute * 10)` — hardcoded, ignoring `checkTimeout`. -/
def loopTimeoutSeconds (_sh : serviceHandler) : Nat := 600

/-- The timeout the `-timeout` flag documents, in seconds:
`checkTimeout` minutes. -/
def configuredTimeoutSeconds (sh : serviceHandler) : Int :=
  sh.checkTimeout * 60

/-- Number of check ticks that run before the hardcoded 10-minute timeout
ticker's value is consumed: `600 / 10`. -/
def ticksInTimeout : Nat := 60

/-- `sh.deploymentState(deployment, desiredState)`:
`aws.StringValue(deployment.RolloutState) == desiredState`. -/
def deploymentState (d : Deployment) (desiredState : String) : Bool :=
  d.rolloutState == desiredState

/-- The `for _, deployment := range sh.currentOutput.Deployments` scan inside
the `isComplete` closure of `waitForDeployment`: the first deployment whose
`Id` equals `deploymentId`, if any. -/
def lookupDeployment (svc : ECSService) (deploymentId : String) : Option Deployment :=
  svc.deployments.find? (fun d => d.id == deploymentId)

/-- `sh.getActiveDeploymentId()`: the `Id` of the first deployment whose
`Status` is `"PRIMARY"`, or `""` if none is. -/
def getActiveDeploymentId (svc : ECSService) : String :=
  match svc.deployments.find? (fun d => d.status == "PRIMARY") with
  | some d => d.id
  | none => ""

/-- The `isComplete` closure of `waitForDeployment`, evaluated on snapshot
`svc`: the tracked deployment's rollout state paired with whether it is
`"COMPLETED"`; `("NOT_FOUND", false)` when no deployment has the tracked id. -/
def isCompleteDeployment (svc : ECSService) (deploymentId : String) : String × Bool :=
  match lookupDeployment svc deploymentId with
  | some d => (d.rolloutState, deploymentState d "COMPLETED")
  | none => ("NOT_FOUND", false)

/-- The `for { select { ... } }` loop of `waitForDeployment`.  `k` is the
number of check ticks consumed so far; the fuel is the number of check ticks
remaining before the timeout ticker's value is consumed.  Each tick refreshes
(propagating a refresh error), then tests the `isComplete` closure: success
on `"COMPLETED"`, the "deployment disappeared" error on status
`"NOT_FOUND"`, otherwise the loop continues. -/
def wfdGo (deploymentId : String) (refresh : Nat → RefreshResult) :
    Nat → Nat → Except MonitorError Unit × Nat
  | k, 0 => (.error .timeout, k)
  | k, fuel + 1 =>
    match refresh k with
    | .transportErr => (.error .transport, k + 1)
    | .noServices => (.error .serviceNotFound, k + 1)
    | .ok svc =>
      let p := isCompleteDeployment svc deploymentId
      if p.2 then (.ok (), k + 1)
      else if p.1 == "NOT_FOUND" then (.error .deploymentDisappeared, k + 1)
      else wfdGo deploymentId refresh (k + 1) fuel

/-- `sh.waitForDeployment(deploymentId)` for the second variant: the
pre-loop check `if _, ok := isComplete(); ok { return nil }` against the
cached snapshot `cur`, then the poll loop with the hardcoded timers. -/
def waitForDeployment (cur : ECSService) (deploymentId : String)
    (refresh : Nat → RefreshResult) : Except MonitorError Unit × Nat :=
  if (isCompleteDeployment cur deploymentId).2 then (.ok (), 0)
  else wfdGo deploymentId refresh 0 ticksInTimeout

/-- `sh.checkDeployments()` for the second variant: refresh (propagating the
error), then `waitForDeployment(sh.getActiveDeploymentId())`.  `r0` is the
result of the initial refresh, `refresh` the stream of in-loop refreshes. -/
def checkDeployments (r0 : RefreshResult) (refresh : Nat → RefreshResult) :
    Except MonitorError Unit × Nat :=
  match r0 with
  | .transportErr => (.error .transport, 0)
  | .noServices => (.error .serviceNotFound, 0)
  | .ok svc => waitForDeployment svc (getActiveDeploymentId svc) refresh

/-- The `isComplete` closure of `waitForRunningToMatchDesired`:
`aws.Int64Value(DesiredCount) == aws.Int64Value(RunningCount)` on the cached
snapshot. -/
def countsMatch (svc : ECSService) : Bool :=
  svc.desiredCount == svc.runningCount

/-- Effect of the unchecked `sh.refresh()` call in the count loop on the
cached snapshot: replaced on success, kept unchanged when the call fails
(the returned error is discarded by the caller). -/
def tickSnapshot (cur : ECSService) : RefreshResult → ECSService
  | .ok svc => svc
  | _ => cur

/-- The `for { select { ... } }` loop of `waitForRunningToMatchDesired`.
Each tick runs `sh.refresh()` with its error discarded, then tests
`isComplete()`; on success it sleeps 15 seconds and tests `isComplete()`
again — with no intervening refresh, so on the same cached snapshot — and
returns nil if the re-test holds. -/
def wfrGo (refresh : Nat → RefreshResult) :
    ECSService → Nat → Nat → Except MonitorError Unit × Nat
  | _, k, 0 => (.error .timeout, k)
  | cur, k, fuel + 1 =>
    let cur' := tickSnapshot cur (refresh k)
    if countsMatch cur' then
      (if countsMatch cur' then (.ok (), k + 1) else wfrGo refresh cur' (k + 1) fuel)
    else wfrGo refresh cur' (k + 1) fuel

/-- `sh.waitForRunningToMatchDesired()`: the pre-loop `isComplete()` check on
the cached snapshot, then the poll loop with the hardcoded timers. -/
def waitForRunningToMatchDesired (cur : ECSService)
    (refresh : Nat → RefreshResult) : Except MonitorError Unit × Nat :=
  if countsMatch cur then (.ok (), 0)
  else wfrGo refresh cur 0 ticksInTimeout

/-- `sh.checkPendingCount()`: refresh (propagating the error), then call
`waitForRunningToMatchDesired` when desired and running differ. -/
def checkPendingCount (r0 : RefreshResult) (refresh : Nat → RefreshResult) :
    Except MonitorError Unit × Nat :=
  match r0 with
  | .transportErr => (.error .transport, 0)
  | .noServices => (.error .serviceNotFound, 0)
  | .ok svc =>
    if countsMatch svc then (.ok (), 0)
    else waitForRunningToMatchDesired svc refresh

/-- Observable outcome of a diagnostics printer: a returned error, a Go
run-time panic, the explicit "none found" message, or the printed items. -/
inductive PrintOutcome where
  | errored (e : MonitorError)
  | panicked
  | noneFoundMessage
  | printed (items : List String)
deriving DecidableEq, Repr

/-- The clamping arithmetic shared by both printers and both variants:
`if len(xs) < n { n = len(xs) - 1; if n == 0 { n = 1 } }`. -/
def clampN (len n : Int) : Int :=
  if len < n then (if len - 1 = 0 then 1 else len - 1) else n

/-- Go slice expression `xs[0:n]` with `n : Int`: the first `n` elements when
`0 ≤ n ≤ len(xs)`, and a run-time panic (modelled as `none`) otherwise. -/
def goSlice (xs : List String) (n : Int) : Option (List String) :=
  if 0 ≤ n ∧ n ≤ (xs.length : Int) then some (xs.take n.toNat) else none

/-- `sh.printLastNEvents(n)` of the second variant: refresh (propagating the
error), print `"No events found"` when the snapshot has zero events,
otherwise clamp `n` and print `Events[0:n]`. -/
def printLastNEvents (r : RefreshResult) (n : Int) : PrintOutcome :=
  match r with
  | .transportErr => .errored .transport
  | .noServices => .errored .serviceNotFound
  | .ok svc =>
    if svc.events.length = 0 then .noneFoundMessage
    else
      match goSlice svc.events (clampN (svc.events.length : Int) n) with
      | some evs => .printed evs
      | none => .panicked

/-- `sh.printLastNTasks(n)` of the second variant.  `listResult` is the
`ListTasks` call's outcome (its arns, or a transport error); `describeOk`
states whether the `DescribeTasks` call on the sliced arns succeeds.  Zero
returned arns print an explicit message; otherwise `n` is clamped and
`TaskArns[0:n]` is described and printed. -/
def printLastNTasks (listResult : Except Unit (List String))
    (describeOk : Bool) (n : Int) : PrintOutcome :=
  match listResult with
  | .error _ => .errored .transport
  | .ok arns =>
    if arns.length = 0 then .noneFoundMessage
    else
      match goSlice arns (clampN (arns.length : Int) n) with
      | some chosen => if describeOk then .printed chosen else .errored .transport
      | none => .panicked

/-- One registered target's health (`elbv2.TargetHealthDescription`), reduced
to the field the program reads, `TargetHealth.State`. -/
structure TargetHealthDescription where
  state : String
deriving DecidableEq, Repr

/-- `sh.checkTargetGroup()`: refresh (propagating the error); return
`(true, nil)` when the service has no load balancers; otherwise call
`DescribeTargetHealth` on the first binding's target group (`healthOf`,
propagating its error as fatal) and return whether every target's state is
`"healthy"`. -/
def checkTargetGroup (r : RefreshResult)
    (healthOf : String → Except Unit (List TargetHealthDescription)) :
    Except MonitorError Bool :=
  match r with
  | .transportErr => .error .transport
  | .noServices => .error .serviceNotFound
  | .ok svc =>
    match svc.loadBalancers with
    | [] => .ok true
    | lb :: _ =>
      match healthOf lb.targetGroupArn with
      | .error _ => .error .transport
      | .ok targets => .ok (targets.all (fun t => t.state == "healthy"))

namespace V1

/-- `sh.printLastNEvents(n)` of the first variant: identical to the second
variant's printer except that there is no zero-events guard, so the clamp
is applied to a zero length as well. -/
def printLastNEvents (r : RefreshResult) (n : Int) : PrintOutcome :=
  match r with
  | .transportErr => .errored .transport
  | .noServices => .errored .serviceNotFound
  | .ok svc =>
    match goSlice svc.events (clampN (svc.events.length : Int) n) with
    | some evs => .printed evs
    | none => .panicked

end V1

/-- Decidable equality on `Except`, needed to evaluate the loop results on
concrete inputs. -/
instance {ε α : Type} [DecidableEq ε] [DecidableEq α] : DecidableEq (Except ε α) := fun a b =>
  match a, b with
  | .error e, .error f => decidable_of_iff (e = f) (by simp)
  | .error _, .ok _ => isFalse (by simp)
  | .ok _, .error _ => isFalse (by simp)
  | .ok x, .ok y => decidable_of_iff (x = y) (by simp)

/-! ### Step lemmas for the poll loops -/

theorem wfdGo_zero (deploymentId : String) (refresh : Nat → RefreshResult) (k : Nat) :
    wfdGo deploymentId refresh k 0 = (.error .timeout, k) := rfl

theorem wfdGo_transport (deploymentId : String) (refresh : Nat → RefreshResult)
    (k fuel : Nat) (h : refresh k = .transportErr) :
    wfdGo deploymentId refresh k (fuel + 1) = (.error .transport, k + 1) := by
  simp [wfdGo, h]

theorem wfdGo_ok_complete (deploymentId : String) (refresh : Nat → RefreshResult)
    (k fuel : Nat) (svc : ECSService) (d : Deployment)
    (h : refresh k = .ok svc) (hl : lookupDeployment svc deploymentId = some d)
    (hc : d.rolloutState = "COMPLETED") :
    wfdGo deploymentId refresh k (fuel + 1) = (.ok (), k + 1) := by
  simp [wfdGo, h, isCompleteDeployment, hl, deploymentState, hc]

theorem wfdGo_ok_waiting (deploymentId : String) (refresh : Nat → RefreshResult)
    (k fuel : Nat) (svc : ECSService) (d : Deployment)
    (h : refresh k = .ok svc) (hl : lookupDeployment svc deploymentId = some d)
    (hc : d.rolloutState ≠ "COMPLETED") (hnf : d.rolloutState ≠ "NOT_FOUND") :
    wfdGo deploymentId refresh k (fuel + 1) = wfdGo deploymentId refresh (k + 1) fuel := by
  simp [wfdGo, h, isCompleteDeployment, hl, deploymentState, hc, hnf]

theorem wfdGo_ok_absent (deploymentId : String) (refresh : Nat → RefreshResult)
    (k fuel : Nat) (svc : ECSService)
    (h : refresh k = .ok svc) (hl : lookupDeployment svc deploymentId = none) :
    wfdGo deploymentId refresh k (fuel + 1) = (.error .deploymentDisappeared, k + 1) := by
  simp [wfdGo, h, isCompleteDeployment, hl]

theorem wfdGo_ok_sentinel (deploymentId : String) (refresh : Nat → RefreshResult)
    (k fuel : Nat) (svc : ECSService) (d : Deployment)
    (h : refresh k = .ok svc) (hl : lookupDeployment svc deploymentId = some d)
    (hs : d.rolloutState = "NOT_FOUND") :
    wfdGo deploymentId refresh k (fuel + 1) = (.error .deploymentDisappeared, k + 1) := by
  simp [wfdGo, h, isCompleteDeployment, hl, deploymentState, hs]

theorem wfrGo_zero (refresh : Nat → RefreshResult) (cur : ECSService) (k : Nat) :
    wfrGo refresh cur k 0 = (.error .timeout, k) := rfl

theorem wfrGo_succ (refresh : Nat → RefreshResult) (cur : ECSService) (k fuel : Nat) :
    wfrGo refresh cur k (fuel + 1) =
      (if countsMatch (tickSnapshot cur (refresh k)) then (.ok (), k + 1)
       else wfrGo refresh (tickSnapshot cur (refresh k)) (k + 1) fuel) := by
  by_cases h : countsMatch (tickSnapshot cur (refresh k)) <;> simp [wfrGo, h]

/-! ### Claim C2 -/

/-- Deployment (not `PRIMARY`) of the service refuting claim C2. -/
def dC2 : Deployment := ⟨"d1", "ACTIVE", "IN_PROGRESS"⟩

/-- Service with no `PRIMARY` deployment refuting claim C2. -/
def svcC2 : ECSService := ⟨3, 3, [dC2], [], []⟩

/-- Counterexample to claim C2: when no deployment has status `PRIMARY`,
Phase A does not succeed immediately — `checkDeployments` tracks the empty
id, enters the poll loop, and the first tick fails with the
deployment-disappeared error. -/
theorem c2_counterexample :
    dC2.status ≠ "PRIMARY" ∧
    getActiveDeploymentId svcC2 = "" ∧
    checkDeployments (.ok svcC2) (fun _ => .ok svcC2) = (.error .deploymentDisappeared, 1) := by
  refine ⟨by decide, rfl, by decide⟩

/-- Claim C2 (amended): when no deployment in the snapshot has status
`PRIMARY`, `checkDeployments` tracks the empty-string id; provided no
deployment carries an empty id and the first in-loop refresh succeeds on a
snapshot that also has no empty-id deployment, Phase A enters the poll loop
and fails with the deployment-disappeared error on the first tick instead of
succeeding immediately. -/
theorem c2_amended (svc svc1 : ECSService) (refresh : Nat → RefreshResult)
    (hnp : ∀ d ∈ svc.deployments, d.status ≠ "PRIMARY")
    (hid : ∀ d ∈ svc.deployments, d.id ≠ "")
    (h0 : refresh 0 = .ok svc1)
    (hid1 : ∀ d ∈ svc1.deployments, d.id ≠ "") :
    checkDeployments (.ok svc) refresh = (.error .deploymentDisappeared, 1) := by
  have hga : getActiveDeploymentId svc = "" := by
    unfold getActiveDeploymentId
    have hfind : svc.deployments.find? (fun d => d.status == "PRIMARY") = none := by
      rw [List.find?_eq_none]
      intro d hd
      simpa using hnp d hd
    rw [hfind]
  have hl : lookupDeployment svc "" = none := by
    unfold lookupDeployment
    rw [List.find?_eq_none]
    intro d hd
    simpa using hid d hd
  have hl1 : lookupDeployment svc1 "" = none := by
    unfold lookupDeployment
    rw [List.find?_eq_none]
    intro d hd
    simpa using hid1 d hd
  have hstep := wfdGo_ok_absent "" refresh 0 59 svc1 h0 hl1
  simp [checkDeployments, hga, waitForDeployment, isCompleteDeployment, hl,
    show ticksInTimeout = 59 + 1 from rfl, hstep]

/-- Service with one non-primary deployment witnessing claim C2's amended
statement. -/
def svcC2w : ECSService := ⟨2, 2, [⟨"d9", "ACTIVE", "IN_PROGRESS"⟩], [], []⟩

/-- Witness for the amended claim C2 at a concrete snapshot. -/
theorem c2_amended_witness :
    checkDeployments (.ok svcC2w) (fun _ => .ok svcC2w) = (.error .deploymentDisappeared, 1) :=
  c2_amended svcC2w svcC2w (fun _ => .ok svcC2w) (by decide) (by decide) rfl (by decide)

/-! ### Claim C5 -/

/-- Deployment stuck `IN_PROGRESS` forever, exercising claim C5. -/
def dC5 : Deployment := ⟨"d1", "PRIMARY", "IN_PROGRESS"⟩

/-- Service whose tracked deployment never completes, exercising claim C5. -/
def svcC5 : ECSService := ⟨3, 3, [dC5], [], []⟩

/-- Service whose counts never converge, exercising claim C5 for Phase B. -/
def svcC5b : ECSService := ⟨3, 2, [], [], []⟩

/-- Handler configured with `-check 10 -timeout 20`, exercising claim C5. -/
def shC5 : serviceHandler := ⟨10, 20⟩

/-- Claim C5 (evaluation of the code at the failing input): with the
`-timeout` flag set to 20 minutes and a predicate that never becomes true,
both poll loops return their timeout error after 60 hardcoded 10-second
ticks, i.e. at 600 seconds of elapsed wall-clock time — materially before
the configured 1200-second timeout that the flag documents. -/
theorem c5_code_evaluation :
    waitForDeployment svcC5 "d1" (fun _ => .ok svcC5) = (.error .timeout, 60) ∧
    waitForRunningToMatchDesired svcC5b (fun _ => .ok svcC5b) = (.error .timeout, 60) ∧
    loopTickSeconds shC5 = 10 ∧
    loopTimeoutSeconds shC5 = 600 ∧
    60 * loopTickSeconds shC5 = loopTimeoutSeconds shC5 ∧
    configuredTimeoutSeconds shC5 = 1200 ∧
    ((loopTimeoutSeconds shC5 : Int) < configuredTimeoutSeconds shC5) := by
  refine ⟨by decide, by decide, rfl, rfl, rfl, rfl, by decide⟩

/-! ### Claim C1 -/

/-- Snapshot with regressed counts (running below desired), for claim C1. -/
def svcC1down : ECSService := ⟨3, 2, [], [], []⟩

/-- Snapshot with matching counts, for claim C1. -/
def svcC1up : ECSService := ⟨3, 3, [], [], []⟩

/-- Refresh stream for claim C1: the first in-loop refresh observes matching
counts; every later refresh — in particular any refresh a grace-period
re-check would perform — observes the regression. -/
def refreshC1 : Nat → RefreshResult := fun n =>
  if n = 0 then .ok svcC1up else .ok svcC1down

/-- Claim C1 (evaluation of the code at the failing input): Phase B's loop
succeeds on the very tick where the predicate first holds, because the
post-sleep re-test reads the unchanged cached snapshot instead of a fresh
one; the regression that every subsequent refresh would report is never
observed. -/
theorem c1_code_evaluation :
    countsMatch svcC1down = false ∧
    refreshC1 1 = .ok svcC1down ∧
    refreshC1 2 = .ok svcC1down ∧
    waitForRunningToMatchDesired svcC1down refreshC1 = (.ok (), 1) := by
  refine ⟨rfl, rfl, rfl, by decide⟩

/-! ### Claim C4 -/

/-- Service with diverged counts, for claim C4's counterexample. -/
def svcC4 : ECSService := ⟨3, 2, [], [], []⟩

/-- Service with matching counts, for claim C4's counterexample. -/
def svcC4up : ECSService := ⟨3, 3, [], [], []⟩

/-- Refresh stream for claim C4: the first in-loop refresh fails with a
transport error, the next one succeeds with converged counts. -/
def refreshC4 : Nat → RefreshResult := fun n =>
  if n = 0 then .transportErr else .ok svcC4up

/-- Counterexample to claim C4: the transport error of the failed refresh on
Phase B's first poll tick is not propagated — the run discards it and ends
in success two ticks later. -/
theorem c4_counterexample :
    refreshC4 0 = .transportErr ∧
    checkPendingCount (.ok svcC4) refreshC4 = (.ok (), 2) := by
  refine ⟨rfl, by decide⟩

/-- Claim C4 (amended): a failed control-plane call is propagated immediately
as fatal from Phase A's poll loop and from the initial refresh of Phases A
and B; but inside Phase B's poll loop the refresh error is discarded — the
tick degenerates to a re-test of the cached snapshot and the loop continues
(or succeeds) instead of failing. -/
theorem c4_amended (deploymentId : String) (refresh : Nat → RefreshResult)
    (cur : ECSService) (k fuel : Nat) (h : refresh k = .transportErr) :
    wfdGo deploymentId refresh k (fuel + 1) = (.error .transport, k + 1) ∧
    wfrGo refresh cur k (fuel + 1) =
      (if countsMatch cur then (.ok (), k + 1) else wfrGo refresh cur (k + 1) fuel) ∧
    checkDeployments .transportErr refresh = (.error .transport, 0) ∧
    checkPendingCount .transportErr refresh = (.error .transport, 0) := by
  refine ⟨wfdGo_transport _ _ _ _ h, ?_, rfl, rfl⟩
  rw [wfrGo_succ]
  simp [tickSnapshot, h]

/-- Service used to witness the amended claim C4. -/
def svcC4w : ECSService := ⟨5, 5, [], [], []⟩

/-- Witness for the amended claim C4 at concrete inputs. -/
theorem c4_amended_witness :
    wfdGo "d1" (fun _ => .transportErr) 0 (1 + 1) = (.error .transport, 0 + 1) ∧
    wfrGo (fun _ => .transportErr) svcC4w 0 (1 + 1) =
      (if countsMatch svcC4w then (.ok (), 0 + 1)
       else wfrGo (fun _ => .transportErr) svcC4w (0 + 1) 1) ∧
    checkDeployments .transportErr (fun _ => .transportErr) = (.error .transport, 0) ∧
    checkPendingCount .transportErr (fun _ => .transportErr) = (.error .transport, 0) :=
  c4_amended "d1" (fun _ => .transportErr) svcC4w 0 1 rfl

/-! ### Claim C3 -/

/-- Combined effect of the clamp and the slice on a non-empty list shorter
than the requested count: `max (len - 1) 1` items survive. -/
theorem clamp_slice (xs : List String) (n : Int)
    (h1 : 0 < xs.length) (h2 : (xs.length : Int) < n) :
    goSlice xs (clampN (xs.length : Int) n) = some (xs.take (max (xs.length - 1) 1)) ∧
    (xs.take (max (xs.length - 1) 1)).length = max (xs.length - 1) 1 := by
  have hclamp : clampN (xs.length : Int) n = ((max (xs.length - 1) 1 : Nat) : Int) := by
    unfold clampN
    rw [if_pos h2]
    by_cases hone : (xs.length : Int) - 1 = 0
    · rw [if_pos hone]; omega
    · rw [if_neg hone]; omega
  constructor
  · rw [hclamp]
    unfold goSlice
    rw [if_pos (by constructor <;> omega)]
    simp
    omega
  · rw [List.length_take]
    omega

/-- Service with two events, refuting claim C3. -/
def svcC3 : ECSService := ⟨1, 1, [], ["e1", "e2"], []⟩

/-- Counterexample to claim C3: with `N = 2` events available and `n = 10`
requested, the diagnostics print exactly one event, not the two available. -/
theorem c3_counterexample :
    svcC3.events.length = 2 ∧ (2 : Int) < 10 ∧
    printLastNEvents (.ok svcC3) 10 = .printed ["e1"] := by
  refine ⟨rfl, by decide, by decide⟩

/-- Claim C3 (amended): for a failure diagnostic request of `n` items, if
`N` items are available with `0 < N < n` then exactly `max (N - 1) 1` items
are printed — that is, `N - 1` items for `N ≥ 2` and one item for `N = 1` —
without any error; if `N = 0` an explicit none-found message is printed
instead of erroring.  This holds for both the events and the stopped-tasks
printers of the second variant. -/
theorem c3_amended (svc : ECSService) (arns : List String) (n : Int) :
    (svc.events = [] → printLastNEvents (.ok svc) n = .noneFoundMessage) ∧
    (0 < svc.events.length → (svc.events.length : Int) < n →
      printLastNEvents (.ok svc) n =
          .printed (svc.events.take (max (svc.events.length - 1) 1)) ∧
        (svc.events.take (max (svc.events.length - 1) 1)).length =
          max (svc.events.length - 1) 1) ∧
    (arns = [] → printLastNTasks (.ok arns) true n = .noneFoundMessage) ∧
    (0 < arns.length → (arns.length : Int) < n →
      printLastNTasks (.ok arns) true n =
          .printed (arns.take (max (arns.length - 1) 1)) ∧
        (arns.take (max (arns.length - 1) 1)).length = max (arns.length - 1) 1) := by
  refine ⟨?_, ?_, ?_, ?_⟩
  · intro h
    simp [printLastNEvents, h]
  · intro h1 h2
    obtain ⟨hs, hlen⟩ := clamp_slice svc.events n h1 h2
    refine ⟨?_, hlen⟩
    simp [printLastNEvents, Nat.pos_iff_ne_zero.mp h1, hs]
  · intro h
    simp [printLastNTasks, h]
  · intro h1 h2
    obtain ⟨hs, hlen⟩ := clamp_slice arns n h1 h2
    refine ⟨?_, hlen⟩
    simp [printLastNTasks, Nat.pos_iff_ne_zero.mp h1, hs]

/-- Service with three events witnessing the amended claim C3. -/
def svcC3w : ECSService := ⟨1, 1, [], ["a", "b", "c"], []⟩

/-- Witness for the amended claim C3: three events and `n = 10` print two
events; three stopped tasks and `n = 5` describe two tasks. -/
theorem c3_amended_witness :
    printLastNEvents (.ok svcC3w) 10 = .printed ["a", "b"] ∧
    printLastNTasks (.ok ["t1", "t2", "t3"]) true 5 = .printed ["t1", "t2"] := by
  constructor
  · have he := ((c3_amended svcC3w ["t1", "t2", "t3"] 10).2.1 (by decide) (by decide)).1
    rw [he]
    decide
  · have ht := ((c3_amended svcC3w ["t1", "t2", "t3"] 5).2.2.2 (by decide) (by decide)).1
    rw [ht]
    decide

/-! ### Claim C6 -/

/-- Run of the Phase A poll loop up to the first tick that observes the
tracked id's absence: provided every earlier tick refreshes successfully and
observes the id present in a state that is neither `COMPLETED` nor the
in-band sentinel `NOT_FOUND`, the loop returns the deployment-disappeared
error on the absence tick. -/
theorem wfdGo_disappears (deploymentId : String) (refresh : Nat → RefreshResult)
    (svcs : Nat → ECSService) :
    ∀ (j k fuel : Nat),
      (∀ i, i ≤ j → refresh (k + i) = .ok (svcs (k + i))) →
      (∀ i, i < j → ∃ d, lookupDeployment (svcs (k + i)) deploymentId = some d ∧
        d.rolloutState ≠ "COMPLETED" ∧ d.rolloutState ≠ "NOT_FOUND") →
      lookupDeployment (svcs (k + j)) deploymentId = none →
      j < fuel →
      wfdGo deploymentId refresh k fuel = (.error .deploymentDisappeared, k + j + 1) := by
  intro j
  induction j with
  | zero =>
    intro k fuel hok _hpre habs hfuel
    obtain ⟨f, rfl⟩ : ∃ f, fuel = f + 1 := ⟨fuel - 1, by omega⟩
    have h0 : refresh k = .ok (svcs k) := by simpa using hok 0 (le_refl 0)
    have habs' : lookupDeployment (svcs k) deploymentId = none := by simpa using habs
    simpa using wfdGo_ok_absent deploymentId refresh k f (svcs k) h0 habs'
  | succ j ih =>
    intro k fuel hok hpre habs hfuel
    obtain ⟨f, rfl⟩ : ∃ f, fuel = f + 1 := ⟨fuel - 1, by omega⟩
    obtain ⟨d, hd, hdc, hdn⟩ := by simpa using hpre 0 (by omega)
    have h0 : refresh k = .ok (svcs k) := by simpa using hok 0 (by omega)
    rw [wfdGo_ok_waiting deploymentId refresh k f (svcs k) d h0 hd hdc hdn]
    have h2 := ih (k + 1) f
      (fun i hi => by
        simpa [show k + 1 + i = k + (i + 1) by omega] using hok (i + 1) (by omega))
      (fun i hi => by
        simpa [show k + 1 + i = k + (i + 1) by omega] using hpre (i + 1) (by omega))
      (by simpa [show k + 1 + j = k + (j + 1) by omega] using habs)
      (by omega)
    have heq : k + 1 + j + 1 = k + (j + 1) + 1 := by omega
    rw [heq] at h2
    exact h2

/-- Deployment present with the sentinel rollout state, refuting claim C6. -/
def dC6 : Deployment := ⟨"d1", "PRIMARY", "NOT_FOUND"⟩

/-- Service containing `dC6`, refuting claim C6. -/
def svcC6 : ECSService := ⟨1, 1, [dC6], [], []⟩

/-- Service from which the tracked deployment has vanished, for claim C6. -/
def svcC6gone : ECSService := ⟨1, 1, [], [], []⟩

/-- Refresh stream for claim C6's counterexample: the id is still present on
the first tick and absent from the second tick onwards. -/
def refreshC6 : Nat → RefreshResult := fun n =>
  if n = 0 then .ok svcC6 else .ok svcC6gone

/-- Counterexample to claim C6: the tracked id is present on the first tick's
snapshot (absence would first be observed on the second tick), yet the loop
reports the deployment-disappeared error already on the first tick, because
the id's rollout state collides with the code's in-band sentinel string
`NOT_FOUND`. -/
theorem c6_counterexample :
    refreshC6 0 = .ok svcC6 ∧
    lookupDeployment svcC6 "d1" = some dC6 ∧
    lookupDeployment svcC6gone "d1" = none ∧
    waitForDeployment svcC6 "d1" refreshC6 = (.error .deploymentDisappeared, 1) := by
  refine ⟨rfl, by decide, rfl, by decide⟩

/-- Claim C6 (amended): in Phase A's poll loop, for every sequence of
snapshots in which the tracked id is absent after having been present, the
loop fails with the deployment-disappeared error exactly on the tick where
the absence is first observed — provided every state observed before then is
neither `COMPLETED` (which ends the loop in success) nor the literal string
`NOT_FOUND`, which the code cannot distinguish from absence and reports as a
disappearance early. -/
theorem c6_amended (cur : ECSService) (d0 : Deployment) (deploymentId : String)
    (refresh : Nat → RefreshResult) (svcs : Nat → ECSService) (j : Nat)
    (h0 : lookupDeployment cur deploymentId = some d0)
    (h0c : d0.rolloutState ≠ "COMPLETED")
    (hok : ∀ i, i ≤ j → refresh i = .ok (svcs i))
    (hpre : ∀ i, i < j → ∃ d, lookupDeployment (svcs i) deploymentId = some d ∧
      d.rolloutState ≠ "COMPLETED" ∧ d.rolloutState ≠ "NOT_FOUND")
    (habs : lookupDeployment (svcs j) deploymentId = none)
    (hj : j < ticksInTimeout) :
    waitForDeployment cur deploymentId refresh = (.error .deploymentDisappeared, j + 1) := by
  have hpc : (isCompleteDeployment cur deploymentId).2 = false := by
    simp [isCompleteDeployment, h0, deploymentState, h0c]
  rw [waitForDeployment, if_neg (by simp [hpc])]
  have h2 := wfdGo_disappears deploymentId refresh svcs j 0 ticksInTimeout
    (fun i hi => by simpa using hok i hi)
    (fun i hi => by simpa using hpre i hi)
    (by simpa using habs)
    hj
  simpa using h2

/-- Deployment tracked in the witness of the amended claim C6. -/
def dC6w : Deployment := ⟨"d2", "PRIMARY", "IN_PROGRESS"⟩

/-- Service containing `dC6w`, for the amended claim C6's witness. -/
def svcC6w : ECSService := ⟨1, 1, [dC6w], [], []⟩

/-- Service without `dC6w`, for the amended claim C6's witness. -/
def svcC6wGone : ECSService := ⟨1, 1, [], [], []⟩

/-- Snapshot stream for the amended claim C6's witness: present on tick one,
absent from tick two onwards. -/
def svcsC6w : Nat → ECSService := fun n => if n = 0 then svcC6w else svcC6wGone

/-- Witness for the amended claim C6: absence first observed on the second
tick yields the deployment-disappeared error with exactly two ticks
consumed. -/
theorem c6_amended_witness :
    waitForDeployment svcC6w "d2" (fun n => .ok (svcsC6w n)) = (.error .deploymentDisappeared, 2) :=
  c6_amended svcC6w dC6w "d2" (fun n => .ok (svcsC6w n)) svcsC6w 1 (by decide) (by decide)
    (fun i hi => rfl)
    (fun i hi => by
      interval_cases i
      exact ⟨dC6w, by decide, by decide, by decide⟩)
    (by decide) (by decide)

/-! ### Claim C8 -/

/-- Deployment present with the sentinel rollout state, refuting claim C8. -/
def dC8 : Deployment := ⟨"d1", "PRIMARY", "NOT_FOUND"⟩

/-- Service containing `dC8` on every snapshot, refuting claim C8. -/
def svcC8 : ECSService := ⟨1, 1, [dC8], [], []⟩

/-- Counterexample to claim C8: the tracked deployment remains present on
every snapshot and its rollout state is never `COMPLETED`, yet the loop
terminates early on the first tick — neither via disappearance of the id nor
via timeout — because the state string collides with the code's in-band
sentinel `NOT_FOUND`. -/
theorem c8_counterexample :
    lookupDeployment svcC8 "d1" = some dC8 ∧
    dC8.rolloutState ≠ "COMPLETED" ∧
    waitForDeployment svcC8 "d1" (fun _ => .ok svcC8) = (.error .deploymentDisappeared, 1) := by
  refine ⟨by decide, by decide, by decide⟩

/-- Claim C8 (amended): in Phase A's poll loop, for a tracked deployment that
remains present with successful refreshes and whose rollout state is never
the literal sentinel string `NOT_FOUND`, any state other than `COMPLETED`
(including `FAILED`) keeps the loop waiting: the loop ends only in success
or timeout, and it ends in success exactly when some tick within the fuel
bound observes `COMPLETED`. -/
theorem c8_amended (svcs : Nat → ECSService) (ds : Nat → Deployment)
    (deploymentId : String) (fuel k : Nat)
    (hpres : ∀ n, lookupDeployment (svcs n) deploymentId = some (ds n))
    (hns : ∀ n, (ds n).rolloutState ≠ "NOT_FOUND") :
    ((wfdGo deploymentId (fun n => .ok (svcs n)) k fuel).1 = .ok () ∨
      (wfdGo deploymentId (fun n => .ok (svcs n)) k fuel).1 = .error .timeout) ∧
    ((wfdGo deploymentId (fun n => .ok (svcs n)) k fuel).1 = .ok () ↔
      ∃ j, j < fuel ∧ (ds (k + j)).rolloutState = "COMPLETED") := by
  induction fuel generalizing k with
  | zero =>
    refine ⟨Or.inr rfl, ?_, ?_⟩
    · intro h
      exact absurd h (by simp [wfdGo_zero])
    · rintro ⟨j, hj, _⟩
      omega
  | succ fuel ih =>
    by_cases hc : (ds k).rolloutState = "COMPLETED"
    · rw [wfdGo_ok_complete deploymentId (fun n => .ok (svcs n)) k fuel (svcs k) (ds k)
        rfl (hpres k) hc]
      refine ⟨Or.inl rfl, ?_, fun _ => rfl⟩
      intro _
      exact ⟨0, by omega, by simpa using hc⟩
    · rw [wfdGo_ok_waiting deploymentId (fun n => .ok (svcs n)) k fuel (svcs k) (ds k)
        rfl (hpres k) hc (hns k)]
      obtain ⟨hdisj, hiff⟩ := ih (k + 1)
      refine ⟨hdisj, ?_⟩
      rw [hiff]
      constructor
      · rintro ⟨j, hj, hcomp⟩
        exact ⟨j + 1, by omega, by simpa [show k + (j + 1) = k + 1 + j by omega] using hcomp⟩
      · rintro ⟨j, hj, hcomp⟩
        rcases j with _ | j
        · exact absurd (by simpa using hcomp) hc
        · exact ⟨j, by omega, by simpa [show k + 1 + j = k + (j + 1) by omega] using hcomp⟩

/-- Deployment stuck in state `FAILED`, witnessing the amended claim C8. -/
def dC8w : Deployment := ⟨"d3", "PRIMARY", "FAILED"⟩

/-- Service containing `dC8w` on every snapshot, witnessing the amended
claim C8. -/
def svcC8w : ECSService := ⟨1, 1, [dC8w], [], []⟩

/-- Witness for the amended claim C8 at a constant `FAILED` stream with two
ticks of fuel. -/
theorem c8_amended_witness :
    ((wfdGo "d3" (fun _ => .ok svcC8w) 0 2).1 = .ok () ∨
      (wfdGo "d3" (fun _ => .ok svcC8w) 0 2).1 = .error .timeout) ∧
    ((wfdGo "d3" (fun _ => .ok svcC8w) 0 2).1 = .ok () ↔
      ∃ j, j < 2 ∧ dC8w.rolloutState = "COMPLETED") := by
  have hl : lookupDeployment svcC8w "d3" = some dC8w := by decide
  have hs : dC8w.rolloutState ≠ "NOT_FOUND" := by decide
  exact c8_amended (fun _ => svcC8w) (fun _ => dC8w) "d3" 2 0 (fun _ => hl) (fun _ => hs)

/-! ### Claim C7 -/

/-- Claim C7: for every snapshot in which the tracked deployment's
`rolloutState` is `COMPLETED` on first fetch, Phase A succeeds immediately
without a single poll tick (`checkDeployments` returns success with zero
ticks consumed, for every refresh stream). -/
theorem c7_completed_immediate (svc : ECSService) (refresh : Nat → RefreshResult)
    (d : Deployment)
    (hl : lookupDeployment svc (getActiveDeploymentId svc) = some d)
    (hc : d.rolloutState = "COMPLETED") :
    checkDeployments (.ok svc) refresh = (.ok (), 0) := by
  simp [checkDeployments, waitForDeployment, isCompleteDeployment, hl, deploymentState, hc]

/-- Snapshot used to witness claim C7. -/
def dC7 : Deployment := ⟨"d1", "PRIMARY", "COMPLETED"⟩

/-- Service used to witness claim C7. -/
def svcC7 : ECSService := ⟨3, 3, [dC7], [], []⟩

/-- Witness for claim C7 at a concrete snapshot. -/
theorem c7_witness :
    lookupDeployment svcC7 (getActiveDeploymentId svcC7) = some dC7 ∧
    dC7.rolloutState = "COMPLETED" ∧
    checkDeployments (.ok svcC7) (fun _ => .ok svcC7) = (.ok (), 0) :=
  ⟨by decide, rfl, c7_completed_immediate svcC7 (fun _ => .ok svcC7) dC7 (by decide) rfl⟩

/-! ### Claim C9 -/

/-- Claim C9: Phase C's `checkTargetGroup` succeeds immediately (returns
converged) when the service has no load-balancer binding, for every health
oracle; when bindings exist, only the first binding's target group is
consulted, and the check reports converged exactly when every target health
description in that group has state `healthy`. -/
theorem c9_target_group (svc : ECSService)
    (healthOf : String → Except Unit (List TargetHealthDescription)) :
    (svc.loadBalancers = [] → checkTargetGroup (.ok svc) healthOf = .ok true) ∧
    (∀ lb rest targets, svc.loadBalancers = lb :: rest →
      healthOf lb.targetGroupArn = .ok targets →
      checkTargetGroup (.ok svc) healthOf =
          .ok (targets.all (fun t => t.state == "healthy")) ∧
        (checkTargetGroup (.ok svc) healthOf = .ok true ↔
          ∀ t ∈ targets, t.state = "healthy")) := by
  constructor
  · intro h
    simp [checkTargetGroup, h]
  · intro lb rest targets hlb hh
    constructor
    · simp [checkTargetGroup, hlb, hh]
    · simp [checkTargetGroup, hlb, hh, List.all_eq_true]

/-- Service with no load balancer, witnessing claim C9's first part. -/
def svcNoLB : ECSService := ⟨1, 1, [], [], []⟩

/-- Service with two load balancers, witnessing claim C9's second part. -/
def svcOneLB : ECSService := ⟨1, 1, [], [], [⟨"tg1"⟩, ⟨"tg2"⟩]⟩

/-- Target healths (one unhealthy) witnessing claim C9's second part. -/
def tgtsC9 : List TargetHealthDescription := [⟨"healthy"⟩, ⟨"unhealthy"⟩]

/-- Health oracle used to witness claim C9. -/
def healthC9 : String → Except Unit (List TargetHealthDescription) :=
  fun _ => .ok tgtsC9

/-- Witness for claim C9 at concrete inputs. -/
theorem c9_witness :
    checkTargetGroup (.ok svcNoLB) healthC9 = .ok true ∧
    checkTargetGroup (.ok svcOneLB) healthC9 = .ok false := by
  constructor
  · exact (c9_target_group svcNoLB healthC9).1 rfl
  · have h := ((c9_target_group svcOneLB healthC9).2 ⟨"tg1"⟩ [⟨"tg2"⟩] tgtsC9 rfl rfl).1
    rw [h]
    decide

/-! ### Claim C10 -/

/-- Claim C10: in the first program variant, `printLastNEvents` on a snapshot
with exactly zero events clamps the requested count to `-1` and evaluates the
slice `Events[0:-1]`, which panics: the diagnostics path is not total in that
variant. -/
theorem c10_v1_zero_events_panics (svc : ECSService) (n : Int)
    (he : svc.events = []) (hn : 0 < n) :
    clampN ((svc.events.length : Int)) n = -1 ∧
    V1.printLastNEvents (.ok svc) n = .panicked := by
  have hc : clampN ((svc.events.length : Int)) n = -1 := by
    simp [clampN, he, hn]
  refine ⟨hc, ?_⟩
  simp [V1.printLastNEvents, hc, goSlice]

/-- Zero-event service used to witness claim C10 (the reachable input:
`exitOut` calls `printLastNEvents(10)`). -/
def svcC10 : ECSService := ⟨2, 2, [], [], []⟩

/-- Witness for claim C10 at the reachable input `n = 10`. -/
theorem c10_witness :
    svcC10.events = [] ∧ (0 : Int) < 10 ∧
    clampN ((svcC10.events.length : Int)) 10 = -1 ∧
    V1.printLastNEvents (.ok svcC10) 10 = .panicked :=
  ⟨rfl, by decide, c10_v1_zero_events_panics svcC10 10 rfl (by decide)⟩

end AWTY
